import Mathlib

/-!
Verification development for the clipboard-image-optimizer repository.

The provided sources contain the presentation layer: a floating progress
overlay (src/unnamed/part_000), a settings panel (src/unnamed/part_001) and
an earlier settings panel variant (src/src/App.vue).  Those are embedded
directly below.  The backend optimization pipeline (clipboard monitoring,
decode/encode, commit decision, session state and revert) is not among the
sources; it is modelled from the specification, as marked on each of its
definitions.
-/

namespace ClipOpt

/-! ## Progress overlay (embedded from src/unnamed/part_000) -/

/-- Commands the UI can invoke on the backend (Tauri `invoke` targets seen in
the sources: `hide_progress`, `revert_clipboard`, `set_auto_start`,
`get_auto_start`). -/
inductive UICommand
  | hideProgress
  | revertClipboard
  | setAutoStart (enabled : Bool)
  | getAutoStart
  deriving DecidableEq

/-- Progress overlay display state, from `type ProgressState = 'loading' | 'finished'`. -/
inductive ProgressState
  | loading
  | finished
  deriving DecidableEq

/-- Payload of the `optimization-complete` event, from the
`listen<{ original_size: number, new_size: number }>` handler. -/
structure CompletePayload where
  original_size : Nat
  new_size : Nat
  deriving DecidableEq

/-- A scheduled one-shot timer: `setTimeout(() => invoke(command), delayMs)`. -/
structure OverlayTimer where
  delayMs : Nat
  command : UICommand
  deriving DecidableEq

/-- Reactive state of the progress overlay component: `state`, `originalSize`,
`newSize` refs and the `autoHideTimer` handle. -/
structure Overlay where
  state : ProgressState
  originalSize : Nat
  newSize : Nat
  autoHideTimer : Option OverlayTimer
  deriving DecidableEq

/-- From `clearAutoHideTimer` in src/unnamed/part_000: cancels any pending
auto-hide timer. -/
def clearAutoHideTimer (o : Overlay) : Overlay :=
  { o with autoHideTimer := none }

/-- From `startAutoHideTimer` in src/unnamed/part_000: clears any pending
timer, then schedules `invoke('hide_progress')` 5000 milliseconds later. -/
def startAutoHideTimer (o : Overlay) : Overlay :=
  { clearAutoHideTimer o with
      autoHideTimer := some { delayMs := 5000, command := UICommand.hideProgress } }

/-- From the `optimization-start` listener in src/unnamed/part_000:
`state.value = 'loading'; clearAutoHideTimer()`. -/
def onOptimizationStart (o : Overlay) : Overlay :=
  clearAutoHideTimer { o with state := ProgressState.loading }

/-- From the `optimization-complete` listener in src/unnamed/part_000:
`state.value = 'finished'`, record both sizes from the payload, then
`startAutoHideTimer()`. -/
def onOptimizationComplete (o : Overlay) (p : CompletePayload) : Overlay :=
  startAutoHideTimer
    { o with
        state := ProgressState.finished
        originalSize := p.original_size
        newSize := p.new_size }

/-- Commands invoked by reachable code paths of the progress overlay
(src/unnamed/part_000): the auto-hide timer invokes `hide_progress`
(line 47).  The revert button (line 15) and the `revert` handler that would
invoke `revert_clipboard` (lines 58-61) are commented out in the source, so
no reachable path invokes `revert_clipboard`. -/
def overlayInvokedCommands : List UICommand :=
  [UICommand.hideProgress]

/-- Renders a 0..99 remainder with two digits, as JS `toFixed(2)` does for
the fractional part. -/
def twoDigits (m : Nat) : String :=
  if m < 10 then "0" ++ toString m else toString m

/-- From `formatSize` in src/unnamed/part_000:
`size < 1024` yields `` `${size} B` ``, `size < 1024*1024` yields
`` `${(size / 1024).toFixed(1)} KB` ``, otherwise
`` `${(size / (1024 * 1024)).toFixed(2)} MB` ``.
For an integer `size < 2^53` the JS divisions by `2^10` / `2^20` are exact
(dyadic), and `toFixed(f)` of an exact value is the integer nearest to
`x * 10^f` with ties taken upward; `(size * 10 + 512) / 1024` and
`(size * 50 + 262144) / 524288` are those integers (numerator and
denominator of `(2*a + b) / (2*b)` reduced by 2 resp. 4). -/
def formatSize (size : Nat) : String :=
  if size < 1024 then
    toString size ++ " B"
  else if size < 1024 * 1024 then
    toString ((size * 10 + 512) / 1024 / 10) ++ "." ++
      toString ((size * 10 + 512) / 1024 % 10) ++ " KB"
  else
    toString ((size * 50 + 262144) / 524288 / 100) ++ "." ++
      twoDigits ((size * 50 + 262144) / 524288 % 100) ++ " MB"

/-- From the `statistics` computed property in src/unnamed/part_000:
`` `${formatSize(originalSize.value)} → ${formatSize(newSize.value)}` ``. -/
def statistics (originalSize newSize : Nat) : String :=
  formatSize originalSize ++ " → " ++ formatSize newSize

/-! ## Settings panels (embedded from src/unnamed/part_001 and src/src/App.vue) -/

/-- Externally observable actions of the settings panels: backend command
invocations and localStorage traffic. -/
inductive SettingsAction
  | invokeSetAutoStart (enabled : Bool)
  | invokeGetAutoStart
  | persistLocal (key : String) (value : String)
  | readLocal (key : String)
  deriving DecidableEq

/-- From `watch(autoStart)` in src/unnamed/part_001: awaits
`invoke("set_auto_start", { enabled: newValue })` and persists
`localStorage.setItem("autoStart", String(newValue))` only afterwards; when
the invoke rejects, the catch block persists nothing. -/
def settingsAutoStartWatch (invokeSucceeds : Bool) (newValue : Bool) : List SettingsAction :=
  if invokeSucceeds then
    [SettingsAction.invokeSetAutoStart newValue,
     SettingsAction.persistLocal "autoStart" (toString newValue)]
  else
    [SettingsAction.invokeSetAutoStart newValue]

/-- From `onMounted` in src/unnamed/part_001 (auto-start part):
`autoStart.value = await invoke<boolean>("get_auto_start")`. -/
def settingsOnMountAutoStart : List SettingsAction :=
  [SettingsAction.invokeGetAutoStart]

/-- From `watch(autoStart)` in src/src/App.vue: persists
`localStorage.setItem("autoStart", String(newValue))`; the
`invoke("set_auto_start", ...)` call is commented out (a TODO), so no
backend command is invoked. -/
def appVueAutoStartWatch (newValue : Bool) : List SettingsAction :=
  [SettingsAction.persistLocal "autoStart" (toString newValue)]

/-- From `onMounted` in src/src/App.vue (auto-start part): reads
`localStorage.getItem("autoStart")`; `get_auto_start` is never invoked. -/
def appVueOnMountAutoStart : List SettingsAction :=
  [SettingsAction.readLocal "autoStart"]

/-! ## Backend optimization pipeline (modelled from the spec) -/

/-- Modelled from the spec: clipboard format identifiers (spec section 3,
`formats`: "raw bitmap, PNG, JPEG, file references"); the backend sources
are not provided. -/
inductive Format
  | bitmap
  | png
  | jpeg
  | fileRef
  deriving DecidableEq

/-- Modelled from the spec: an image format is one the pipeline may try to
re-encode (eligibility, spec sections 3 and 4.2); file references are not
images. -/
def Format.isImage : Format → Bool
  | .bitmap => true
  | .png => true
  | .jpeg => true
  | .fileRef => false

/-- A raw byte buffer. -/
abbrev Bytes := List Nat

/-- Modelled from the spec: `ClipboardSnapshot` (spec section 3): per-format
payloads plus the OS-supplied `sequenceId`; the backend sources are not
provided. -/
structure Snapshot where
  payload : List (Format × Bytes)
  seqId : Nat
  deriving DecidableEq

/-- Modelled from the spec: the image-format entry of a snapshot, if any
(eligibility check of spec section 4.2, transition 1). -/
def Snapshot.imagePayload (s : Snapshot) : Option (Format × Bytes) :=
  s.payload.find? (fun p => p.1.isImage)

/-- Modelled from the spec: whether the snapshot contains an image format. -/
def Snapshot.hasImage (s : Snapshot) : Bool :=
  s.imagePayload.isSome

/-- Modelled from the spec: the OS clipboard — current content plus the
monotonically increasing change counter (spec sections 3 and 4.1); the
backend sources are not provided. -/
structure Clipboard where
  content : List (Format × Bytes)
  seq : Nat
  deriving DecidableEq

/-- Modelled from the spec: `write` of the Clipboard Adapter (spec section
4.1) — replaces the clipboard content and yields a fresh sequence number. -/
def Clipboard.write (c : Clipboard) (content : List (Format × Bytes)) : Clipboard :=
  { content := content, seq := c.seq + 1 }

/-- Modelled from the spec: a decoded pixel buffer (spec section 3,
`rawPixels`: width, height, channel data). -/
structure RawPixels where
  width : Nat
  height : Nat
  data : List Nat
  deriving DecidableEq

/-- Modelled from the spec: the Codec component (spec section 2) — pure
decode into raw pixels and pure encode to JPEG bytes at the fixed quality;
failure is `none` (`DecodeFailure` / `EncodeFailure`, spec section 7). -/
structure Codec where
  decode : Bytes → Option RawPixels
  encode : RawPixels → Option Bytes

/-- Modelled from the spec: fixed pipeline configuration — the minimum-size
floor and the already-optimized size threshold of spec section 4.2
transition 2, the advisory session lifetime of spec section 4.3, and whether
the caller enforces `expiresAt` (spec: "it only checks expiresAt if the
caller enforces it via configuration"). -/
structure Config where
  minSizeFloor : Nat
  optimizedSizeThreshold : Nat
  sessionTtl : Nat
  enforceExpiry : Bool

/-- Modelled from the spec: the environment of one pipeline step — the codec,
whether a clipboard write would succeed (`ClipboardUnavailable` /
`WriteFailure`, spec section 7), and the current time. -/
structure Env where
  codec : Codec
  writeOk : Bool
  now : Nat

/-- Modelled from the spec: `OptimizedResult` (spec section 3). -/
structure OptimizedResult where
  encodedBytes : Bytes
  newSize : Nat
  committed : Bool
  deriving DecidableEq

/-- Modelled from the spec: `SessionState` (spec section 3) — the original
snapshot retained for revert, the committed result, and the advisory
expiry timestamp. -/
structure Session where
  originalSnapshot : Snapshot
  result : OptimizedResult
  expiresAt : Nat
  deriving DecidableEq

/-- Modelled from the spec: the pipeline is either `Idle` or busy running
the `Evaluating`/`Encoding`/`Committing` phases on one snapshot (spec
sections 4.2 and 5: a single active instance). -/
inductive Phase
  | idle
  | busy (snap : Snapshot)
  deriving DecidableEq

/-- Modelled from the spec: outcome of one pipeline run — `Committing → Idle`,
`Skipped → Idle` or `Failed → Idle` (spec section 4.2). -/
inductive Outcome
  | committed
  | skipped
  | failed
  deriving DecidableEq

/-- Modelled from the spec: outbound notifications of the Event Gateway
(spec section 6). -/
inductive Event
  | optimizationStart
  | optimizationComplete (originalSize newSize : Nat)
  deriving DecidableEq

/-- Modelled from the spec: the whole backend state — clipboard, pipeline
phase, the coalesced pending snapshot (spec section 4.2 concurrency note),
session state, and the sequence number of the pipeline's own last write
(self-write suppression, spec section 4.2 transition 1). -/
structure Sys where
  clip : Clipboard
  phase : Phase
  pending : Option Snapshot
  session : Option Session
  lastWriteSeq : Option Nat
  deriving DecidableEq

/-- Modelled from the spec: `Idle → Evaluating` entry (spec section 4.2,
transition 1).  A notification whose `sequenceId` equals the pipeline's own
last write is ignored (self-write suppression); otherwise the
`optimization-start` notification is emitted only if the snapshot contains
an image format, else the pipeline returns directly to `Idle` emitting
nothing. -/
def beginEval (s : Sys) (snap : Snapshot) : Sys × List Event :=
  if s.lastWriteSeq = some snap.seqId then
    (s, [])
  else if snap.hasImage then
    ({ s with phase := Phase.busy snap }, [Event.optimizationStart])
  else
    (s, [])

/-- Modelled from the spec: the `Evaluating → Encoding → Committing` body of
one run (spec section 4.2, transitions 2-6).  Skip below the minimum-size
floor or for an already-JPEG source below the size threshold; decode or
encode failure yields `Failed` with no mutation; commit only if
`newSize < originalSize` (else `Skipped`); a committed write replaces the
clipboard, records the fresh sequence number for self-write suppression,
stores `SessionState` and emits `optimization-complete`; a write failure
yields `Failed` with the clipboard left in its pre-write state. -/
def runBody (cfg : Config) (env : Env) (s : Sys) (snap : Snapshot) :
    Sys × Outcome × List Event :=
  match snap.imagePayload with
  | none => (s, Outcome.skipped, [])
  | some (fmt, bytes) =>
    if bytes.length < cfg.minSizeFloor ∨
        (fmt = Format.jpeg ∧ bytes.length ≤ cfg.optimizedSizeThreshold) then
      (s, Outcome.skipped, [])
    else
      match env.codec.decode bytes with
      | none => (s, Outcome.failed, [])
      | some px =>
        match env.codec.encode px with
        | none => (s, Outcome.failed, [])
        | some enc =>
          if enc.length < bytes.length then
            if env.writeOk then
              ({ s with
                  clip := s.clip.write [(Format.jpeg, enc)]
                  lastWriteSeq := some (s.clip.write [(Format.jpeg, enc)]).seq
                  session := some
                    { originalSnapshot := snap
                      result :=
                        { encodedBytes := enc
                          newSize := enc.length
                          committed := true }
                      expiresAt := env.now + cfg.sessionTtl } },
               Outcome.committed,
               [Event.optimizationComplete bytes.length enc.length])
            else
              (s, Outcome.failed, [])
          else
            (s, Outcome.skipped, [])

/-- Modelled from the spec: a clipboard-change notification (spec sections
4.1 and 4.2).  The clipboard now holds the new snapshot's content; when the
pipeline is `Idle` the snapshot enters evaluation, otherwise it is queued
coalesced — only the most recent pending snapshot is kept. -/
def notify (s : Sys) (snap : Snapshot) : Sys × List Event :=
  let s1 := { s with clip := { content := snap.payload, seq := snap.seqId } }
  match s1.phase with
  | Phase.idle => beginEval s1 snap
  | Phase.busy _ => ({ s1 with pending := some snap }, [])

/-- A sequence of clipboard-change notifications delivered in order,
with the emitted events concatenated. -/
def notifyAll (s : Sys) : List Snapshot → Sys × List Event
  | [] => (s, [])
  | snap :: rest =>
    let r1 := notify s snap
    let r2 := notifyAll r1.1 rest
    (r2.1, r1.2 ++ r2.2)

/-- Modelled from the spec: completion of the in-flight run (spec section
4.2 transitions 2-6 plus the concurrency note): the busy snapshot's run body
executes, the machine returns to `Idle`, and the coalesced pending snapshot,
if any, is then evaluated. -/
def tick (cfg : Config) (env : Env) (s : Sys) : Sys × List Event :=
  match s.phase with
  | Phase.idle => (s, [])
  | Phase.busy snap =>
    let r := runBody cfg env s snap
    let s2 := { r.1 with phase := Phase.idle }
    match s2.pending with
    | none => (s2, r.2.2)
    | some p =>
      let r2 := beginEval { s2 with pending := none } p
      (r2.1, r.2.2 ++ r2.2)

/-- Modelled from the spec: `revert()` (spec section 4.3).  If `SessionState`
holds a committed result and the session has not expired (expiry checked
only when the configuration enforces it), the original snapshot's payload is
written back via the Clipboard Adapter and `SessionState` is cleared;
otherwise a no-op.  A failed revert write is modelled as leaving the state
unchanged (the spec leaves this case open, section 7). -/
def revert (cfg : Config) (env : Env) (s : Sys) : Sys :=
  match s.session with
  | none => s
  | some sess =>
    if sess.result.committed = true ∧
        (cfg.enforceExpiry = false ∨ env.now < sess.expiresAt) then
      if env.writeOk then
        { s with clip := s.clip.write sess.originalSnapshot.payload, session := none }
      else
        s
    else
      s

/-! ## Concrete scenario data (used by counterexamples and witnesses) -/

/-- A sample decoded pixel buffer. -/
def pxSample : RawPixels := { width := 1, height := 1, data := [7] }

/-- A codec whose encode always shrinks to 3 bytes. -/
def shrinkCodec : Codec :=
  { decode := fun _ => some pxSample, encode := fun _ => some [1, 2, 3] }

/-- A codec whose encode always grows to 20 bytes. -/
def growCodec : Codec :=
  { decode := fun _ => some pxSample,
    encode := fun _ => some [0, 1, 2, 3, 4, 5, 6, 7, 8, 9, 10, 11, 12, 13, 14, 15, 16, 17, 18, 19] }

/-- A codec whose decode always fails. -/
def failDecodeCodec : Codec :=
  { decode := fun _ => none, encode := fun _ => some [1] }

/-- A sample pipeline configuration. -/
def baseCfg : Config :=
  { minSizeFloor := 4, optimizedSizeThreshold := 0, sessionTtl := 5000, enforceExpiry := false }

/-- Environment with a succeeding clipboard write and the shrinking codec. -/
def envOk : Env := { codec := shrinkCodec, writeOk := true, now := 0 }

/-- Environment whose clipboard write fails. -/
def envNoWrite : Env := { codec := shrinkCodec, writeOk := false, now := 0 }

/-- Environment whose decode fails. -/
def envDecodeFail : Env := { codec := failDecodeCodec, writeOk := true, now := 0 }

/-- Environment with the growing codec. -/
def envGrow : Env := { codec := growCodec, writeOk := true, now := 0 }

/-- A 10-byte PNG snapshot. -/
def snapImg : Snapshot :=
  { payload := [(Format.png, [9, 9, 9, 9, 9, 9, 9, 9, 9, 9])], seqId := 5 }

/-- A snapshot with no image format. -/
def snapNoImg : Snapshot :=
  { payload := [(Format.fileRef, [1, 2, 3])], seqId := 6 }

/-- A second image snapshot, used as a stale intermediate. -/
def snapImg2 : Snapshot :=
  { payload := [(Format.bitmap, [8, 8, 8, 8, 8, 8, 8, 8])], seqId := 7 }

/-- A third image snapshot, used as the most recent pending one. -/
def snapImg3 : Snapshot :=
  { payload := [(Format.png, [6, 6, 6, 6, 6, 6])], seqId := 8 }

/-- System state busy optimizing `snapImg`, clipboard holding its payload. -/
def sysBusy : Sys :=
  { clip := { content := snapImg.payload, seq := 5 }
    phase := Phase.busy snapImg
    pending := none
    session := none
    lastWriteSeq := none }

/-- Idle system state with an empty clipboard. -/
def sysIdle : Sys :=
  { clip := { content := [], seq := 0 }
    phase := Phase.idle
    pending := none
    session := none
    lastWriteSeq := none }

/-- A session record whose result was not committed. -/
def uncommittedSession : Session :=
  { originalSnapshot := snapImg
    result := { encodedBytes := [1, 2, 3], newSize := 3, committed := false }
    expiresAt := 5000 }

/-- Idle system state holding an uncommitted session record. -/
def sysUncommitted : Sys :=
  { sysIdle with session := some uncommittedSession }

/-! ## Helper lemmas -/

/-- Rounding a quotient of naturals half upward equals the natural division
`(2a + b) / (2b)`. -/
theorem round_natCast_div (a b : ℕ) (hb : 0 < b) :
    round ((a : ℚ) / b) = (((2 * a + b) / (2 * b) : ℕ) : ℤ) := by
  have hb' : (0 : ℚ) < (b : ℚ) := by exact_mod_cast hb
  have hx : (a : ℚ) / b + 1 / 2 = ((2 * a + b : ℕ) : ℚ) / ((2 * b : ℕ) : ℚ) := by
    push_cast
    field_simp
    ring
  have hnn : (0 : ℚ) ≤ ((2 * a + b : ℕ) : ℚ) / ((2 * b : ℕ) : ℚ) := by positivity
  rw [round_eq, hx, ← Int.natCast_floor_eq_floor hnn, Nat.floor_div_eq_div]

/-- `runBody` never touches the pending slot. -/
theorem runBody_pending (cfg : Config) (env : Env) (s : Sys) (snap : Snapshot) :
    (runBody cfg env s snap).1.pending = s.pending := by
  unfold runBody
  repeat' split
  all_goals rfl

/-- `runBody` never touches the phase. -/
theorem runBody_phase (cfg : Config) (env : Env) (s : Sys) (snap : Snapshot) :
    (runBody cfg env s snap).1.phase = s.phase := by
  unfold runBody
  repeat' split
  all_goals rfl

/-- A `Failed` run leaves the whole state unchanged and emits nothing. -/
theorem runBody_failed_eq (cfg : Config) (env : Env) (s : Sys) (snap : Snapshot)
    (h : (runBody cfg env s snap).2.1 = Outcome.failed) :
    runBody cfg env s snap = (s, Outcome.failed, []) := by
  rcases hr : runBody cfg env s snap with ⟨s', o, evs⟩
  rw [hr] at h
  simp only at h
  subst h
  unfold runBody at hr
  repeat' split at hr
  all_goals simp_all

/-- `beginEval` never touches the clipboard. -/
theorem beginEval_clip (s : Sys) (p : Snapshot) : (beginEval s p).1.clip = s.clip := by
  unfold beginEval
  repeat' split
  all_goals rfl

/-- `beginEval` never touches the session. -/
theorem beginEval_session (s : Sys) (p : Snapshot) :
    (beginEval s p).1.session = s.session := by
  unfold beginEval
  repeat' split
  all_goals rfl

/-- `beginEval` never touches the pending slot. -/
theorem beginEval_pending (s : Sys) (p : Snapshot) :
    (beginEval s p).1.pending = s.pending := by
  unfold beginEval
  repeat' split
  all_goals rfl

/-- `beginEval` never emits a completion event. -/
theorem beginEval_no_complete (s : Sys) (p : Snapshot) (o n : Nat) :
    Event.optimizationComplete o n ∉ (beginEval s p).2 := by
  unfold beginEval
  repeat' split
  all_goals simp

/-- While the pipeline is busy, a burst of notifications is coalesced: the
final state keeps only the last snapshot pending (with the clipboard holding
its content) and no events are emitted. -/
theorem notifyAll_busy (ns : List Snapshot) :
    ∀ (s : Sys) (b : Snapshot), s.phase = Phase.busy b →
      ∀ lst, ns.getLast? = some lst →
        notifyAll s ns
          = ({ s with pending := some lst,
                      clip := { content := lst.payload, seq := lst.seqId } }, []) := by
  induction ns with
  | nil =>
    intro s b hb lst hl
    simp [List.getLast?] at hl
  | cons x t ih =>
    intro s b hb lst hl
    have hnx : notify s x
        = ({ s with pending := some x,
                    clip := { content := x.payload, seq := x.seqId } }, []) := by
      unfold notify
      simp only
      rw [hb]
    cases t with
    | nil =>
      simp only [List.getLast?] at hl
      cases hl
      simp [notifyAll, hnx]
    | cons y u =>
      have hl' : (y :: u).getLast? = some lst := by
        rw [List.getLast?_cons_cons] at hl
        exact hl
      have hrec := ih ({ s with pending := some x,
                                clip := { content := x.payload, seq := x.seqId } }) b hb lst hl'
      have hstep : notifyAll s (x :: y :: u)
          = ((notifyAll (notify s x).1 (y :: u)).1,
             (notify s x).2 ++ (notifyAll (notify s x).1 (y :: u)).2) := rfl
      rw [hstep, hnx]
      simp [hrec]

/-! ## Claim theorems -/

/-- C6: calling `revert()` when `SessionState` holds no live committed
session (no session at all, or a record whose result is not committed) is a
no-op: the state, in particular the clipboard, is unchanged and nothing is
surfaced. -/
theorem revert_noop (cfg : Config) (env : Env) (s : Sys) :
    (s.session = none → revert cfg env s = s)
    ∧ (∀ sess, s.session = some sess → sess.result.committed = false →
        revert cfg env s = s) := by
  constructor
  · intro h
    unfold revert
    rw [h]
  · intro sess h hc
    unfold revert
    rw [h]
    simp [hc]

/-- Witness for C6: `revert()` on an empty session and on an uncommitted
session record leaves the concrete state untouched. -/
theorem revert_noop_witness :
    revert baseCfg envOk sysIdle = sysIdle
    ∧ revert baseCfg envOk sysUncommitted = sysUncommitted :=
  ⟨(revert_noop baseCfg envOk sysIdle).1 rfl,
   (revert_noop baseCfg envOk sysUncommitted).2 uncommittedSession rfl rfl⟩

/-- C7: on `optimization-complete` the overlay switches to the finished
state, records both sizes from the payload and schedules `hide_progress`
5000 milliseconds later; on `optimization-start` it returns to the loading
state and cancels any pending auto-hide timer. -/
theorem overlay_progress_events (o : Overlay) (p : CompletePayload) :
    (onOptimizationComplete o p).state = ProgressState.finished
    ∧ (onOptimizationComplete o p).originalSize = p.original_size
    ∧ (onOptimizationComplete o p).newSize = p.new_size
    ∧ (onOptimizationComplete o p).autoHideTimer
        = some { delayMs := 5000, command := UICommand.hideProgress }
    ∧ (onOptimizationStart o).state = ProgressState.loading
    ∧ (onOptimizationStart o).autoHideTimer = none :=
  ⟨rfl, rfl, rfl, rfl, rfl, rfl⟩

/-- C8 counterexample: no reachable code path of the progress overlay
invokes `revert_clipboard` — the revert handler is commented out in the
source, so the claim that some user-reachable path invokes it is false. -/
theorem overlay_revert_not_invoked :
    UICommand.revertClipboard ∉ overlayInvokedCommands := by
  decide

/-- C8 (amended): the overlay hides the revert option and the command is
not wired either — the only command the overlay ever invokes is
`hide_progress`, and every timer it schedules invokes `hide_progress`. -/
theorem overlay_revert_hidden_and_unwired :
    overlayInvokedCommands = [UICommand.hideProgress]
    ∧ UICommand.revertClipboard ∉ overlayInvokedCommands
    ∧ ∀ (o : Overlay) (p : CompletePayload) (t : OverlayTimer),
        (onOptimizationComplete o p).autoHideTimer = some t →
          t.command = UICommand.hideProgress := by
  refine ⟨rfl, by decide, ?_⟩
  intro o p t ht
  simp only [onOptimizationComplete, startAutoHideTimer, clearAutoHideTimer,
    Option.some.injEq] at ht
  rw [← ht]

/-- Witness for C8: the timer scheduled after a concrete completion event
invokes `hide_progress`. -/
theorem overlay_revert_hidden_and_unwired_witness :
    OverlayTimer.command { delayMs := 5000, command := UICommand.hideProgress }
      = UICommand.hideProgress :=
  overlay_revert_hidden_and_unwired.2.2
    { state := ProgressState.loading, originalSize := 0, newSize := 0, autoHideTimer := none }
    { original_size := 10, new_size := 5 }
    { delayMs := 5000, command := UICommand.hideProgress }
    rfl

/-- C9 counterexample: in the `src/src/App.vue` settings panel, a change of
the auto-start toggle (to `true` or to `false`) never invokes
`set_auto_start`, and on mount `get_auto_start` is not consulted — the
claim is false for that panel. -/
theorem app_vue_toggle_no_invoke :
    SettingsAction.invokeSetAutoStart true ∉ appVueAutoStartWatch true
    ∧ SettingsAction.invokeSetAutoStart false ∉ appVueAutoStartWatch false
    ∧ SettingsAction.invokeGetAutoStart ∉ appVueOnMountAutoStart := by
  decide

/-- C9 (amended): in the settings panel of src/unnamed/part_001, every
toggle change invokes `set_auto_start` with the new value and persists it
locally only after the command succeeds, and on mount the toggle is
initialized from `get_auto_start`; the `src/src/App.vue` variant instead
only persists to and reads from localStorage (its invoke is a commented-out
TODO). -/
theorem settings_auto_start_behavior (b : Bool) :
    settingsAutoStartWatch true b
      = [SettingsAction.invokeSetAutoStart b,
         SettingsAction.persistLocal "autoStart" (toString b)]
    ∧ settingsAutoStartWatch false b = [SettingsAction.invokeSetAutoStart b]
    ∧ settingsOnMountAutoStart = [SettingsAction.invokeGetAutoStart]
    ∧ appVueAutoStartWatch b = [SettingsAction.persistLocal "autoStart" (toString b)]
    ∧ appVueOnMountAutoStart = [SettingsAction.readLocal "autoStart"] :=
  ⟨rfl, rfl, rfl, rfl, rfl⟩

/-- C1 counterexample: with a failing clipboard write, a run whose encoded
result (3 bytes) is strictly smaller than the original payload (10 bytes)
is nevertheless not written back — the run ends `Failed`, not committed and
not `Skipped`, refuting the claimed "if and only if". -/
theorem commit_iff_smaller_cx :
    (runBody baseCfg envNoWrite sysBusy snapImg).2.1 = Outcome.failed
    ∧ (runBody baseCfg envNoWrite sysBusy snapImg).1 = sysBusy
    ∧ (runBody baseCfg envNoWrite sysBusy snapImg).2.2 = []
    ∧ ((shrinkCodec.encode pxSample).getD []).length
        < ((snapImg.imagePayload.getD (Format.png, [])).2).length := by
  decide

/-- C1 (amended): for a run that reaches the encoding stage, the result is
written back (committed) if and only if `newSize < originalSize` and the
clipboard write succeeds; whenever `newSize >= originalSize` the run ends
`Skipped` with the clipboard unchanged, and a committed run replaces the
clipboard content with the encoded JPEG. -/
theorem commit_requires_strict_gain (cfg : Config) (env : Env) (s : Sys) (snap : Snapshot)
    (fmt : Format) (bytes : Bytes) (px : RawPixels) (enc : Bytes)
    (himg : snap.imagePayload = some (fmt, bytes))
    (hskip : ¬(bytes.length < cfg.minSizeFloor ∨
        (fmt = Format.jpeg ∧ bytes.length ≤ cfg.optimizedSizeThreshold)))
    (hdec : env.codec.decode bytes = some px)
    (henc : env.codec.encode px = some enc) :
    ((runBody cfg env s snap).2.1 = Outcome.committed ↔
        enc.length < bytes.length ∧ env.writeOk = true)
    ∧ (bytes.length ≤ enc.length →
        (runBody cfg env s snap).2.1 = Outcome.skipped
        ∧ (runBody cfg env s snap).1.clip = s.clip)
    ∧ ((runBody cfg env s snap).2.1 = Outcome.committed →
        (runBody cfg env s snap).1.clip.content = [(Format.jpeg, enc)]) := by
  unfold runBody
  rw [himg]
  simp only [hdec, henc]
  rw [if_neg hskip]
  by_cases hlt : enc.length < bytes.length
  · rw [if_pos hlt]
    cases hwk : env.writeOk with
    | false =>
      simp only [hwk, Bool.false_eq_true, if_false]
      refine ⟨by simp [hlt, hwk], fun hle => absurd hlt (by omega), by simp⟩
    | true =>
      simp only [hwk, if_true]
      refine ⟨by simp [hlt], fun hle => absurd hlt (by omega), ?_⟩
      intro _
      rfl
  · rw [if_neg hlt]
    refine ⟨by simp [hlt], fun _ => ⟨rfl, rfl⟩, by simp⟩

/-- Witness for C1 (amended): with a succeeding write and a shrinking codec
the concrete run commits, and with a growing codec it is skipped with the
clipboard unchanged. -/
theorem commit_requires_strict_gain_witness :
    (runBody baseCfg envOk sysBusy snapImg).2.1 = Outcome.committed
    ∧ (runBody baseCfg envGrow sysBusy snapImg).2.1 = Outcome.skipped
    ∧ (runBody baseCfg envGrow sysBusy snapImg).1.clip = sysBusy.clip := by
  have h1 := commit_requires_strict_gain baseCfg envOk sysBusy snapImg Format.png
    [9, 9, 9, 9, 9, 9, 9, 9, 9, 9] pxSample [1, 2, 3]
    (by decide) (by decide) rfl rfl
  have h2 := commit_requires_strict_gain baseCfg envGrow sysBusy snapImg Format.png
    [9, 9, 9, 9, 9, 9, 9, 9, 9, 9] pxSample
    [0, 1, 2, 3, 4, 5, 6, 7, 8, 9, 10, 11, 12, 13, 14, 15, 16, 17, 18, 19]
    (by decide) (by decide) rfl rfl
  exact ⟨h1.1.mpr ⟨by decide, rfl⟩, (h2.2.1 (by decide)).1, (h2.2.1 (by decide)).2⟩

/-- C2: a clipboard-change whose snapshot contains no image format emits
neither `optimization-start` nor `optimization-complete`, the pipeline
stays/returns to `Idle`, and the clipboard holds exactly the externally
copied content (the pipeline writes nothing). -/
theorem no_image_no_event (s : Sys) (snap : Snapshot) (h : snap.hasImage = false) :
    beginEval s snap = (s, [])
    ∧ (s.phase = Phase.idle →
        (notify s snap).1.phase = Phase.idle
        ∧ (notify s snap).2 = []
        ∧ (notify s snap).1.session = s.session
        ∧ (notify s snap).1.clip.content = snap.payload) := by
  have hb : ∀ t : Sys, beginEval t snap = (t, []) := by
    intro t
    unfold beginEval
    rw [h]
    simp
  refine ⟨hb s, fun hidle => ?_⟩
  unfold notify
  simp only
  rw [hidle]
  simp [hb]

/-- Witness for C2: a concrete file-reference-only snapshot produces no
event and leaves the pipeline idle. -/
theorem no_image_no_event_witness :
    beginEval sysIdle snapNoImg = (sysIdle, [])
    ∧ (notify sysIdle snapNoImg).2 = []
    ∧ (notify sysIdle snapNoImg).1.phase = Phase.idle := by
  have h := no_image_no_event sysIdle snapNoImg (by decide)
  exact ⟨h.1, (h.2 rfl).2.1, (h.2 rfl).1⟩

/-- C5: a run that ends `Failed` (decode failure, encode failure or write
failure) leaves the clipboard in its pre-write state, leaves the session
untouched, and emits no `optimization-complete` event. -/
theorem failed_run_no_mutation (cfg : Config) (env : Env) (s : Sys) (snap : Snapshot)
    (hb : s.phase = Phase.busy snap)
    (hfail : (runBody cfg env s snap).2.1 = Outcome.failed) :
    (tick cfg env s).1.clip = s.clip
    ∧ (tick cfg env s).1.session = s.session
    ∧ ∀ o n, Event.optimizationComplete o n ∉ (tick cfg env s).2 := by
  have hr := runBody_failed_eq cfg env s snap hfail
  unfold tick
  rw [hb]
  simp only [hr]
  cases hpend : s.pending with
  | none => simp [hpend]
  | some p =>
    simp only [hpend]
    refine ⟨?_, ?_, ?_⟩
    · rw [beginEval_clip]
    · rw [beginEval_session]
    · intro o n
      simp only [List.nil_append]
      exact beginEval_no_complete _ p o n

/-- Witness for C5: a concrete decode failure leaves the clipboard and
session of the busy system untouched. -/
theorem failed_run_no_mutation_witness :
    (tick baseCfg envDecodeFail sysBusy).1.clip = sysBusy.clip
    ∧ (tick baseCfg envDecodeFail sysBusy).1.session = sysBusy.session := by
  have h := failed_run_no_mutation baseCfg envDecodeFail sysBusy snapImg rfl (by decide)
  exact ⟨h.1, h.2.1⟩

/-- C3: after a committed optimization run (whose snapshot matched the
clipboard content present immediately before the write), calling `revert()`
before the session expires restores the clipboard content byte-identically
to the pre-optimization content and clears the session state. -/
theorem revert_round_trip (cfg : Config) (env env2 : Env) (s : Sys) (snap : Snapshot)
    (s' : Sys) (evs : List Event)
    (hrun : runBody cfg env s snap = (s', Outcome.committed, evs))
    (hclip : s.clip.content = snap.payload)
    (hw : env2.writeOk = true)
    (hexp : env2.now < env.now + cfg.sessionTtl) :
    (revert cfg env2 s').clip.content = s.clip.content
    ∧ (revert cfg env2 s').session = none := by
  unfold runBody at hrun
  repeat' split at hrun
  all_goals simp only [Prod.mk.injEq, reduceCtorEq, false_and, and_false] at hrun
  obtain ⟨hs', -, -⟩ := hrun
  subst hs'
  unfold revert
  simp only
  rw [if_pos ⟨trivial, Or.inr hexp⟩, if_pos hw]
  exact ⟨hclip.symm, rfl⟩

/-- Witness for C3: running the concrete commit scenario and then reverting
restores the original clipboard content and clears the session. -/
theorem revert_round_trip_witness :
    (revert baseCfg envOk (runBody baseCfg envOk sysBusy snapImg).1).clip.content
      = sysBusy.clip.content
    ∧ (revert baseCfg envOk (runBody baseCfg envOk sysBusy snapImg).1).session = none :=
  revert_round_trip baseCfg envOk envOk sysBusy snapImg
    (runBody baseCfg envOk sysBusy snapImg).1
    (runBody baseCfg envOk sysBusy snapImg).2.2
    rfl rfl rfl (by decide)

/-- C4: notifications arriving while the pipeline is busy are coalesced:
they emit no event, only the most recent snapshot remains pending, and when
the in-flight run finishes, the emitted events are exactly those of the
busy run followed by the evaluation of that most recent snapshot alone —
every intermediate snapshot is dropped without producing any event. -/
theorem coalescing (cfg : Config) (env : Env) (s : Sys) (b lst : Snapshot)
    (ns : List Snapshot)
    (hb : s.phase = Phase.busy b) (hlast : ns.getLast? = some lst) :
    (notifyAll s ns).2 = []
    ∧ (notifyAll s ns).1.pending = some lst
    ∧ (notifyAll s ns).1.phase = Phase.busy b
    ∧ (tick cfg env (notifyAll s ns).1).1.pending = none
    ∧ (tick cfg env (notifyAll s ns).1).2
        = (runBody cfg env (notifyAll s ns).1 b).2.2
          ++ (beginEval { (runBody cfg env (notifyAll s ns).1 b).1 with
                            phase := Phase.idle, pending := none } lst).2 := by
  have hN := notifyAll_busy ns s b hb lst hlast
  rw [hN]
  simp only
  refine ⟨trivial, trivial, hb, ?_, ?_⟩
  · unfold tick
    simp only
    rw [hb]
    simp only
    rw [runBody_pending]
    simp only
    rw [beginEval_pending]
  · unfold tick
    simp only
    rw [hb]
    simp only
    rw [runBody_pending]

/-- Witness for C4: two notifications during a busy run produce no events
and keep only the second snapshot pending. -/
theorem coalescing_witness :
    (notifyAll sysBusy [snapImg2, snapImg3]).2 = []
    ∧ (notifyAll sysBusy [snapImg2, snapImg3]).1.pending = some snapImg3
    ∧ (tick baseCfg envOk (notifyAll sysBusy [snapImg2, snapImg3]).1).1.pending = none := by
  have h := coalescing baseCfg envOk sysBusy snapImg snapImg3 [snapImg2, snapImg3]
    rfl (by decide)
  exact ⟨h.1, h.2.1, h.2.2.2.1⟩

/-- C10: `formatSize` renders `size` with suffix " B" below 1024; between
1024 and 1048576 it renders `size / 1024` rounded (half upward, as JS
`toFixed` does on the exact dyadic value) to one decimal with suffix " KB";
from 1048576 on it renders `size / 1048576` rounded to two decimals with
suffix " MB"; and the statistics string is exactly
`formatSize originalSize ++ " → " ++ formatSize newSize`.  The integer in
the KB branch is `round (size * 10 / 1024)` tenths and in the MB branch
`round (size * 100 / 1048576)` hundredths. -/
theorem format_size_spec (size : Nat) :
    (size < 1024 → formatSize size = toString size ++ " B")
    ∧ (1024 ≤ size → size < 1048576 →
        ((((size * 10 + 512) / 1024 : ℕ) : ℤ) = round ((size : ℚ) * 10 / 1024)
        ∧ formatSize size
            = toString ((size * 10 + 512) / 1024 / 10) ++ "." ++
              toString ((size * 10 + 512) / 1024 % 10) ++ " KB"))
    ∧ (1048576 ≤ size →
        ((((size * 50 + 262144) / 524288 : ℕ) : ℤ) = round ((size : ℚ) * 100 / 1048576)
        ∧ formatSize size
            = toString ((size * 50 + 262144) / 524288 / 100) ++ "." ++
              twoDigits ((size * 50 + 262144) / 524288 % 100) ++ " MB"))
    ∧ (∀ o n, statistics o n = formatSize o ++ " → " ++ formatSize n) := by
  refine ⟨?_, ?_, ?_, fun o n => rfl⟩
  · intro h
    unfold formatSize
    rw [if_pos h]
  · intro h1 h2
    constructor
    · have h := round_natCast_div (size * 10) 1024 (by norm_num)
      push_cast at h
      rw [h]
      have : (size * 10 + 512) / 1024 = (2 * (size * 10) + 1024) / (2 * 1024) := by
        omega
      exact_mod_cast this
    · unfold formatSize
      rw [if_neg (by omega), if_pos (by omega)]
  · intro h1
    constructor
    · have h := round_natCast_div (size * 100) 1048576 (by norm_num)
      push_cast at h
      rw [h]
      have : (size * 50 + 262144) / 524288 = (2 * (size * 100) + 1048576) / (2 * 1048576) := by
        omega
      exact_mod_cast this
    · unfold formatSize
      rw [if_neg (by omega), if_neg (by omega)]

/-- Witness for C10: concrete renderings across all three branches, and the
statistics string of the spec's screenshot scenario. -/
theorem format_size_spec_witness :
    formatSize 500 = "500 B"
    ∧ formatSize 2500 = "2.4 KB"
    ∧ formatSize 3000000 = "2.86 MB"
    ∧ statistics 2000000 450000 = "1.91 MB → 439.5 KB" := by
  refine ⟨?_, ?_, ?_, ?_⟩
  · rw [(format_size_spec 500).1 (by norm_num)]
    decide
  · rw [((format_size_spec 2500).2.1 (by norm_num) (by norm_num)).2]
    decide
  · rw [((format_size_spec 3000000).2.2.1 (by norm_num)).2]
    decide
  · rw [(format_size_spec 0).2.2.2 2000000 450000,
      ((format_size_spec 2000000).2.2.1 (by norm_num)).2,
      ((format_size_spec 450000).2.1 (by norm_num) (by norm_num)).2]
    decide

end ClipOpt
